import Mathlib

/-!
Verification development for the site-checker phishing-triage tool.
The Python sources are embedded shallowly: Python `str` becomes `String`,
Python `float` becomes `ℚ` (all float literals appearing in the program are
decimal and the arithmetic performed on them is exact), Python dictionaries
produced by the analysis helpers become association lists over a `Json`
value type, and fallible steps return `Except String`.
-/

namespace SiteChecker

/-- Model of the Python substring test `needle in hay` on strings
(Python `in` for `str`). -/
def strContainsSub (hay needle : String) : Bool :=
  hay.data.tails.any (fun t => needle.data.isPrefixOf t)

/-- Model of Python `s.startswith(p)`. -/
def strStartsWith (s p : String) : Bool :=
  p.data.isPrefixOf s.data

/-- Model of Python `s.lower()`; the program only compares against ASCII
keywords, for which per-character ASCII lowercasing coincides with Python. -/
def strLower (s : String) : String :=
  String.mk (s.data.map Char.toLower)

/-- JSON-ish values: the codomain of `json.loads` and the value type of the
dictionaries built by the analyzer (`src/agents/site_analyzer.py`). -/
inductive Json where
  | null : Json
  | bool : Bool → Json
  | num : ℚ → Json
  | str : String → Json
  | arr : List Json → Json
  | obj : List (String × Json) → Json

/-- Dictionary lookup, `d.get(k)` / `d[k]`.  The list is searched from the
right so that on duplicate keys the later binding wins, as in a Python dict
built by `json.loads`. -/
def dictGet (d : List (String × Json)) (k : String) : Option Json :=
  (d.reverse.find? (fun p => p.fst == k)).map Prod.snd

/-- `d.get(k, dflt)`. -/
def dictGetD (d : List (String × Json)) (k : String) (dflt : Json) : Json :=
  (dictGet d k).getD dflt

/-- The numeric value stored under `k`, if it is a number. -/
def getNum (d : List (String × Json)) (k : String) : Option ℚ :=
  match dictGet d k with
  | some (Json.num q) => some q
  | _ => none

/-- The string value stored under `k`, if it is a string. -/
def getStr (d : List (String × Json)) (k : String) : Option String :=
  match dictGet d k with
  | some (Json.str s) => some s
  | _ => none

/-- The strings of a `Json` array. -/
def jsonStrings : List Json → List String
  | [] => []
  | Json.str s :: rest => s :: jsonStrings rest
  | _ :: rest => jsonStrings rest

/-- The list of strings stored under `k` ([] when absent). -/
def getStrs (d : List (String × Json)) (k : String) : List String :=
  match dictGet d k with
  | some (Json.arr xs) => jsonStrings xs
  | _ => []

/-- One input field of an HTML form: `field.get("type")`
(`none` models a dict without the "type" key). -/
structure FormField where
  type : Option String
deriving DecidableEq

/-- One HTML form: `form.get("fields", [])`. -/
structure Form where
  fields : List FormField
deriving DecidableEq

/-- `SiteContent` (src/models/site_analysis.py).  `analysis`-irrelevant
metadata keeps its Python optionality; the pydantic `HttpUrl` is carried as
the underlying string. -/
structure SiteContent where
  url : String
  title : Option String := none
  html_content : String
  text_content : String
  meta_description : Option String := none
  meta_keywords : Option (List String) := none
  links : List String := []
  forms : List Form := []
  screenshot_path : Option String := none
  response_time : Option ℚ := none
  status_code : Option Int := none
deriving DecidableEq

/-- `SecurityFlags` (src/models/site_analysis.py) with its field defaults. -/
structure SecurityFlags where
  has_https : Bool := false
  has_valid_certificate : Bool := false
  has_suspicious_keywords : Bool := false
  has_login_forms : Bool := false
  has_payment_forms : Bool := false
  domain_age_days : Option Int := none
  is_blacklisted : Bool := false
deriving DecidableEq

/-- `AnalysisResult` (src/models/site_analysis.py).  The
`analysis_timestamp` field (a wall-clock default) is not modelled. -/
structure AnalysisResult where
  url : String
  risk_score : ℚ
  confidence : ℚ
  security_flags : SecurityFlags
  suspicious_elements : List String := []
  legitimate_indicators : List String := []
  recommendation : String
  explanation : String
  brand_impersonation : Option String := none
  similar_legitimate_sites : List String := []
deriving DecidableEq

/-- `PhishingReport` (src/models/site_analysis.py). -/
structure PhishingReport where
  site_content : SiteContent
  analysis_result : AnalysisResult
  processing_time : ℚ
  errors : List String := []
deriving DecidableEq

/-- The keyword list of `_analyze_security_flags`. -/
def suspicious_keywords : List String :=
  ["urgent", "verify", "suspended", "limited time", "act now",
   "confirm", "update", "security alert", "locked", "expires"]

/-- `SiteAnalyzer._analyze_security_flags` (site_analyzer.py lines 155-190). -/
def analyzeSecurityFlags (c : SiteContent) : SecurityFlags :=
  let url_str := c.url
  let has_https := strStartsWith url_str "https://"
  let text_lower := strLower c.text_content
  let has_suspicious_keywords :=
    suspicious_keywords.any (fun keyword => strContainsSub text_lower keyword)
  let has_login_forms := c.forms.any (fun form =>
    form.fields.any (fun f => f.type == some "password"))
  let payment_field_types := ["email", "text", "password", "tel"]
  let has_payment_forms := c.forms.any (fun form =>
    (form.fields.filter
      (fun f => payment_field_types.any (fun t => f.type == some t))).length > 2)
  { has_https := has_https
    has_valid_certificate := has_https
    has_suspicious_keywords := has_suspicious_keywords
    has_login_forms := has_login_forms
    has_payment_forms := has_payment_forms
    is_blacklisted := false }

/-- The suspicious-word list used by `_fallback_analysis`. -/
def fallback_suspicious_words : List String :=
  ["urgent", "verify", "suspended", "expires"]

/-- `found_suspicious` of `_fallback_analysis`: the suspicious words that
occur in the lower-cased page text. -/
def foundSuspiciousWords (c : SiteContent) : List String :=
  fallback_suspicious_words.filter
    (fun word => strContainsSub (strLower c.text_content) word)

/-- `has_password_forms` of `_fallback_analysis`. -/
def hasPasswordForms (c : SiteContent) : Bool :=
  c.forms.any (fun form =>
    form.fields.any (fun f => f.type == some "password"))

/-- The risk-factor accumulator of `_fallback_analysis`
(site_analyzer.py lines 234-261): +2 without https, +1 per found suspicious
word, +1 for a password form (guarded by `if site_content.forms`). -/
def fallbackRiskFactors (c : SiteContent) : Nat :=
  (if strStartsWith c.url "https://" then 0 else 2)
    + (foundSuspiciousWords c).length
    + (if c.forms.isEmpty then 0 else if hasPasswordForms c then 1 else 0)

/-- `SiteAnalyzer._fallback_analysis` (site_analyzer.py lines 232-273),
returning the Python dict literal of line 265 as an association list. -/
def fallback_analysis (c : SiteContent) : List (String × Json) :=
  let https := strStartsWith c.url "https://"
  let found_suspicious := foundSuspiciousWords c
  let risk_factors := fallbackRiskFactors c
  let suspicious_elements :=
    (if https then [] else ["No HTTPS encryption"])
      ++ found_suspicious.map (fun word => "Suspicious keyword: " ++ word)
      ++ (if c.forms.isEmpty then []
          else if hasPasswordForms c then ["Password input forms detected"]
          else [])
  let legitimate_indicators := if https then ["HTTPS encryption present"] else []
  let risk_score : ℚ := min ((risk_factors : ℚ) * 1.5) 10.0
  [("risk_score", Json.num risk_score),
   ("confidence", Json.num 0.7),
   ("suspicious_elements", Json.arr (suspicious_elements.map Json.str)),
   ("legitimate_indicators", Json.arr (legitimate_indicators.map Json.str)),
   ("recommendation", Json.str
     (if risk_score < 3 then "Low risk"
      else if risk_score < 7 then "Medium risk" else "High risk")),
   ("explanation", Json.str
     ("Rule-based analysis found " ++ toString risk_factors ++ " risk factors")),
   ("brand_impersonation", Json.null)]

/-- The high-risk keyword list of `_extract_from_text_response`. -/
def high_risk_indicators : List String :=
  ["high risk", "phishing", "suspicious", "fake", "scam"]

/-- The low-risk keyword list of `_extract_from_text_response`. -/
def low_risk_indicators : List String :=
  ["legitimate", "safe", "low risk", "trusted"]

/-- `SiteAnalyzer._extract_from_text_response`
(site_analyzer.py lines 208-230). -/
def extract_from_text_response (resp : String) : List (String × Json) :=
  let response_lower := strLower resp
  let risk_score : ℚ :=
    if high_risk_indicators.any (fun k => strContainsSub response_lower k) then 8.0
    else if low_risk_indicators.any (fun k => strContainsSub response_lower k) then 2.0
    else 5.0
  [("risk_score", Json.num risk_score),
   ("confidence", Json.num 0.6),
   ("suspicious_elements", Json.arr [Json.str "AI analysis inconclusive"]),
   ("legitimate_indicators", Json.arr []),
   ("recommendation", Json.str "Manual review recommended"),
   ("explanation", Json.str "AI response could not be parsed properly"),
   ("brand_impersonation", Json.null)]

/-- Skip JSON whitespace (space, tab, newline, carriage return). -/
def skipWs : List Char → List Char
  | c :: cs =>
    if c = ' ' ∨ c = '\t' ∨ c = '\n' ∨ c = '\r' then skipWs cs else c :: cs
  | [] => []

/-- Decode a single-character JSON string escape (the `\u` escape is not
modelled; no input considered here contains it). -/
def escapeChar (c : Char) : Option Char :=
  if c = '"' then some '"'
  else if c = '\\' then some '\\'
  else if c = '/' then some '/'
  else if c = 'b' then some '\x08'
  else if c = 'f' then some '\x0c'
  else if c = 'n' then some '\n'
  else if c = 'r' then some '\r'
  else if c = 't' then some '\t'
  else none

/-- Parse the body of a JSON string after the opening quote; returns the
characters and the remaining input after the closing quote. -/
def parseStrChars : List Char → Option (List Char × List Char)
  | [] => none
  | '"' :: rest => some ([], rest)
  | '\\' :: e :: rest => do
    let c ← escapeChar e
    let (s, r) ← parseStrChars rest
    pure (c :: s, r)
  | c :: rest => do
    let (s, r) ← parseStrChars rest
    pure (c :: s, r)

/-- Digit value of an ASCII digit. -/
def digitVal (c : Char) : Nat := c.toNat - 48

/-- The value of a digit string. -/
def digitsToNat (ds : List Char) : Nat :=
  ds.foldl (fun n c => 10 * n + digitVal c) 0

/-- Parse the integer part of a JSON number (`0` or a nonzero digit followed
by digits — JSON forbids other leading zeros). -/
def parseIntPart : List Char → Option (Nat × List Char)
  | '0' :: rest => some (0, rest)
  | c :: rest =>
    if c.isDigit then
      some (digitsToNat ((c :: rest).takeWhile Char.isDigit),
            (c :: rest).dropWhile Char.isDigit)
    else none
  | [] => none

/-- Parse an optional fraction part, returning the value to add. -/
def parseFracPart : List Char → Option (ℚ × List Char)
  | '.' :: rest =>
    let ds := rest.takeWhile Char.isDigit
    if ds.isEmpty then none
    else some ((digitsToNat ds : ℚ) / (10 : ℚ) ^ ds.length,
               rest.dropWhile Char.isDigit)
  | cs => some (0, cs)

/-- Parse an optional exponent part, returning the multiplier. -/
def parseExpPart : List Char → Option (ℚ × List Char)
  | c :: rest =>
    if c = 'e' ∨ c = 'E' then
      let (sign, rest2) : Int × List Char :=
        match rest with
        | '+' :: r => (1, r)
        | '-' :: r => (-1, r)
        | r => (1, r)
      let ds := rest2.takeWhile Char.isDigit
      if ds.isEmpty then none
      else some ((10 : ℚ) ^ (sign * (digitsToNat ds : Int)),
                 rest2.dropWhile Char.isDigit)
    else some (1, c :: rest)
  | [] => some (1, [])

/-- Parse a JSON number. -/
def parseNumber (cs : List Char) : Option (ℚ × List Char) := do
  let (neg, cs1) : Bool × List Char :=
    match cs with
    | '-' :: r => (true, r)
    | r => (false, r)
  let (ip, cs2) ← parseIntPart cs1
  let (fp, cs3) ← parseFracPart cs2
  let (em, cs4) ← parseExpPart cs3
  let mag : ℚ := ((ip : ℚ) + fp) * em
  pure (if neg then -mag else mag, cs4)

mutual

/-- Parse one JSON value (fuelled; model of the recursive descent inside
`json.loads`). -/
def parseJsonV : Nat → List Char → Option (Json × List Char)
  | 0, _ => none
  | Nat.succ fuel, cs =>
    match skipWs cs with
    | 'n' :: 'u' :: 'l' :: 'l' :: rest => some (Json.null, rest)
    | 't' :: 'r' :: 'u' :: 'e' :: rest => some (Json.bool true, rest)
    | 'f' :: 'a' :: 'l' :: 's' :: 'e' :: rest => some (Json.bool false, rest)
    | '"' :: rest => do
      let (s, r) ← parseStrChars rest
      pure (Json.str (String.mk s), r)
    | '\x7b' :: rest =>
      (match skipWs rest with
       | '\x7d' :: rest2 => some (Json.obj [], rest2)
       | rest2 => do
         let (kvs, rest3) ← parseMembers fuel rest2
         pure (Json.obj kvs, rest3))
    | '[' :: rest =>
      (match skipWs rest with
       | ']' :: rest2 => some (Json.arr [], rest2)
       | rest2 => do
         let (xs, rest3) ← parseElems fuel rest2
         pure (Json.arr xs, rest3))
    | cs2 => do
      let (q, r) ← parseNumber cs2
      pure (Json.num q, r)

/-- Parse the members of a JSON object up to the closing brace. -/
def parseMembers : Nat → List Char → Option (List (String × Json) × List Char)
  | 0, _ => none
  | Nat.succ fuel, cs =>
    match skipWs cs with
    | '"' :: rest => do
      let (k, rest2) ← parseStrChars rest
      match skipWs rest2 with
      | ':' :: rest3 => do
        let (v, rest4) ← parseJsonV fuel rest3
        match skipWs rest4 with
        | ',' :: rest5 => do
          let (kvs, rest6) ← parseMembers fuel rest5
          pure ((String.mk k, v) :: kvs, rest6)
        | '\x7d' :: rest5 => pure ([(String.mk k, v)], rest5)
        | _ => none
      | _ => none
    | _ => none

/-- Parse the elements of a JSON array up to the closing bracket. -/
def parseElems : Nat → List Char → Option (List Json × List Char)
  | 0, _ => none
  | Nat.succ fuel, cs => do
    let (v, rest) ← parseJsonV fuel cs
    match skipWs rest with
    | ',' :: rest2 => do
      let (xs, rest3) ← parseElems fuel rest2
      pure (v :: xs, rest3)
    | ']' :: rest2 => pure ([v], rest2)
    | _ => none

end

/-- Model of `json.loads`: parse a complete JSON document, allowing
surrounding whitespace and rejecting trailing input. -/
def jsonParse (s : String) : Option Json := do
  let (v, rest) ← parseJsonV (s.data.length + 1) s.data
  if (skipWs rest).isEmpty then pure v else none

/-- Model of Python `s.find(c)`: index of the first occurrence, `-1` when
absent. -/
def pyFind (s : String) (c : Char) : Int :=
  match s.data.findIdx? (fun a => a == c) with
  | some i => (i : Int)
  | none => -1

/-- Model of Python `s.rfind(c)`: index of the last occurrence, `-1` when
absent. -/
def pyRfind (s : String) (c : Char) : Int :=
  match s.data.reverse.findIdx? (fun a => a == c) with
  | some i => (s.data.length - 1 - i : Int)
  | none => -1

/-- `SiteAnalyzer._parse_ai_response` (site_analyzer.py lines 192-206):
try `json.loads` on the slice from the first brace to the last brace; on any
failure fall back to `_extract_from_text_response`. -/
def parse_ai_response (resp : String) : List (String × Json) :=
  let start_idx := pyFind resp '\x7b'
  let end_idx := pyRfind resp '\x7d' + 1
  let attempt : Option (List (String × Json)) :=
    if start_idx ≠ -1 ∧ end_idx > start_idx then
      match jsonParse (String.mk
          ((resp.data.drop start_idx.toNat).take (end_idx - start_idx).toNat)) with
      | some (Json.obj kvs) => some kvs
      | _ => none
    else none
  match attempt with
  | some kvs => kvs
  | none => extract_from_text_response resp

/-- pydantic validation of a float field with bounds `ge`/`le`
(`AnalysisResult.risk_score`, `.confidence`).  Coercion of numeric strings
or booleans to float is not modelled; such values are rejected, as are all
non-numbers. -/
def asFloatIn (j : Json) (lo hi : ℚ) : Except String ℚ :=
  match j with
  | Json.num q => if lo ≤ q ∧ q ≤ hi then Except.ok q else Except.error "value out of range"
  | _ => Except.error "value is not a number"

/-- pydantic validation of a `List[str]` field. -/
def asStrList : Json → Except String (List String)
  | Json.arr xs => asStrItems xs
  | _ => Except.error "value is not a list"
where
  asStrItems : List Json → Except String (List String)
    | [] => Except.ok []
    | Json.str s :: rest => (asStrItems rest).map (fun l => s :: l)
    | _ :: _ => Except.error "item is not a string"

/-- pydantic validation of a `str` field. -/
def asStr : Json → Except String String
  | Json.str s => Except.ok s
  | _ => Except.error "value is not a string"

/-- pydantic validation of an `Optional[str]` field (`None` when the key is
absent, which is what `d.get(k)` yields). -/
def asOptStr : Option Json → Except String (Option String)
  | none => Except.ok none
  | some Json.null => Except.ok none
  | some (Json.str s) => Except.ok (some s)
  | some _ => Except.error "value is not a string"

/-- Construction of `AnalysisResult` at site_analyzer.py lines 112-122:
`ai_result.get(...)` defaults followed by pydantic field validation (which
raises — here `Except.error` — on out-of-range or ill-typed values). -/
def mkAnalysisResult (url : String) (ai : List (String × Json))
    (flags : SecurityFlags) : Except String AnalysisResult := do
  let rs ← asFloatIn (dictGetD ai "risk_score" (Json.num 5.0)) 0 10
  let cf ← asFloatIn (dictGetD ai "confidence" (Json.num 0.5)) 0 1
  let se ← asStrList (dictGetD ai "suspicious_elements" (Json.arr []))
  let li ← asStrList (dictGetD ai "legitimate_indicators" (Json.arr []))
  let rc ← asStr (dictGetD ai "recommendation" (Json.str "Requires manual review"))
  let ex ← asStr (dictGetD ai "explanation" (Json.str "Automated analysis completed"))
  let bi ← asOptStr (dictGet ai "brand_impersonation")
  Except.ok
    { url := url
      risk_score := rs
      confidence := cf
      security_flags := flags
      suspicious_elements := se
      legitimate_indicators := li
      recommendation := rc
      explanation := ex
      brand_impersonation := bi }

/-- `SiteAnalyzer._analyze_content` (site_analyzer.py lines 89-122).  The
external agent run is abstracted as its outcome: `Except.ok raw` when
`Runner.run` returned the raw response string, `Except.error` when it
raised (in which case the code falls back to `_fallback_analysis`). -/
def analyze_content (c : SiteContent) (aiOutcome : Except String String) :
    Except String AnalysisResult :=
  let security_flags := analyzeSecurityFlags c
  let ai_result : List (String × Json) :=
    match aiOutcome with
    | Except.ok raw => parse_ai_response raw
    | Except.error _ => fallback_analysis c
  mkAnalysisResult c.url ai_result security_flags

/-- Modelled from the behavior of pydantic's `HttpUrl` validator (library
code, not in this repository): the URL must have an `http`/`https` scheme
followed by a nonempty remainder.  (The real validator is stricter about the
host; only acceptance of well-formed URLs and rejection of strings such as
`""` matter here.) -/
def isValidHttpUrl (url : String) : Bool :=
  (strStartsWith url "http://" ∧ url.data.length > 7)
    ∨ (strStartsWith url "https://" ∧ url.data.length > 8)

/-- The `except` branch of `analyze_site` (site_analyzer.py lines 66-87):
build the degraded report.  Constructing `SiteContent(url=url, ...)` /
`AnalysisResult(url=url, ...)` re-validates the raw `url` string, so this
branch itself raises — `Except.error` — when `url` is not a valid URL. -/
def degradedReport (url e : String) (t : ℚ) : Except String PhishingReport :=
  if isValidHttpUrl url then
    Except.ok
      { site_content :=
          { url := url
            html_content := ""
            text_content := "Error: " ++ e }
        analysis_result :=
          { url := url
            risk_score := 5.0
            confidence := 0.1
            security_flags := {}
            recommendation := "Unable to analyze due to error"
            explanation := "Analysis failed: " ++ e }
        processing_time := t
        errors := ["Analysis error: " ++ e] }
  else Except.error "validation error for HttpUrl"

/-- `SiteAnalyzer.analyze_site` (site_analyzer.py lines 43-87).  The scrape
step and the agent run are abstracted as their outcomes (`Except.error e`
models the step raising an exception with message `e`); wall-clock
processing time is the parameter `t`. -/
def analyze_site (url : String) (scrape : Except String SiteContent)
    (aiOutcome : Except String String) (t : ℚ) : Except String PhishingReport :=
  match scrape with
  | Except.error e => degradedReport url e t
  | Except.ok site_content =>
    match analyze_content site_content aiOutcome with
    | Except.error e => degradedReport url e t
    | Except.ok analysis_result =>
      Except.ok
        { site_content := site_content
          analysis_result := analysis_result
          processing_time := t
          errors := [] }

/-! Helper lemmas. -/

theorem jsonStrings_map_str (l : List String) :
    jsonStrings (l.map Json.str) = l := by
  induction l with
  | nil => rfl
  | cons x xs ih => simp [jsonStrings, ih]

theorem exceptBind_ok {α β : Type} {x : Except String α} {f : α → Except String β}
    {b : β} (h : (x >>= f) = Except.ok b) :
    ∃ a, x = Except.ok a ∧ f a = Except.ok b := by
  cases x with
  | error e => simp [Bind.bind, Except.bind] at h
  | ok a => exact ⟨a, rfl, by simpa [Bind.bind, Except.bind] using h⟩

theorem asFloatIn_ok_bounds {j : Json} {lo hi q : ℚ}
    (h : asFloatIn j lo hi = Except.ok q) : lo ≤ q ∧ q ≤ hi := by
  cases j with
  | num q' =>
    by_cases hb : lo ≤ q' ∧ q' ≤ hi
    · simp [asFloatIn, hb] at h
      exact h ▸ hb
    · simp [asFloatIn, hb] at h
  | null => simp [asFloatIn] at h
  | bool b => simp [asFloatIn] at h
  | str s => simp [asFloatIn] at h
  | arr xs => simp [asFloatIn] at h
  | obj kvs => simp [asFloatIn] at h

theorem mkAnalysisResult_ok_bounds {url : String} {ai : List (String × Json)}
    {flags : SecurityFlags} {ar : AnalysisResult}
    (h : mkAnalysisResult url ai flags = Except.ok ar) :
    (0 ≤ ar.risk_score ∧ ar.risk_score ≤ 10) ∧
    (0 ≤ ar.confidence ∧ ar.confidence ≤ 1) := by
  unfold mkAnalysisResult at h
  obtain ⟨rs, h1, h⟩ := exceptBind_ok h
  obtain ⟨cf, h2, h⟩ := exceptBind_ok h
  obtain ⟨se, h3, h⟩ := exceptBind_ok h
  obtain ⟨li, h4, h⟩ := exceptBind_ok h
  obtain ⟨rc, h5, h⟩ := exceptBind_ok h
  obtain ⟨ex, h6, h⟩ := exceptBind_ok h
  obtain ⟨bi, h7, h⟩ := exceptBind_ok h
  cases h
  exact ⟨asFloatIn_ok_bounds h1, asFloatIn_ok_bounds h2⟩

theorem degradedReport_ok_values {url e : String} {t : ℚ} {r : PhishingReport}
    (h : degradedReport url e t = Except.ok r) :
    r.analysis_result.risk_score = 5.0 ∧ r.analysis_result.confidence = 0.1 := by
  unfold degradedReport at h
  split at h
  · cases h; exact ⟨rfl, rfl⟩
  · cases h

/-! Claim theorems. -/

/-- C4: for every page content, the rule-based scorer returns
risk_score = min(accumulator × 1.5, 10.0) where the accumulator is the
(non-negative, `Nat`-valued) risk-factor count; this value always lies in
[0, 10], and confidence is fixed at 0.7. -/
theorem fallback_risk_score_formula (c : SiteContent) :
    getNum (fallback_analysis c) "risk_score" =
      some (min ((fallbackRiskFactors c : ℚ) * 1.5) 10.0) ∧
    0 ≤ min ((fallbackRiskFactors c : ℚ) * 1.5) 10.0 ∧
    min ((fallbackRiskFactors c : ℚ) * 1.5) 10.0 ≤ 10 ∧
    getNum (fallback_analysis c) "confidence" = some 0.7 := by
  refine ⟨rfl, ?_, ?_, rfl⟩
  · apply le_min
    · positivity
    · norm_num
  · exact min_le_right _ _ |>.trans (by norm_num)

/-- C7: the keyword-scan fallback scores 8.0 when a high-risk keyword occurs
in the lower-cased response, else 2.0 when a low-risk keyword occurs, else
5.0, with confidence always 0.6; in particular the response
"I believe this site is legitimate and safe." yields 2.0 / 0.6. -/
theorem extract_text_risk_rules (s : String) :
    getNum (extract_from_text_response s) "risk_score" =
      some (if high_risk_indicators.any (fun k => strContainsSub (strLower s) k)
            then 8.0
            else if low_risk_indicators.any (fun k => strContainsSub (strLower s) k)
            then 2.0 else 5.0) ∧
    getNum (extract_from_text_response s) "confidence" = some 0.6 ∧
    getNum (extract_from_text_response
      "I believe this site is legitimate and safe.") "risk_score" = some 2.0 ∧
    getNum (extract_from_text_response
      "I believe this site is legitimate and safe.") "confidence" = some 0.6 := by
  exact ⟨rfl, rfl, rfl, rfl⟩

/-- C5: on an https page with no forms whose text is
"Please verify your account, it will be suspended", the rule-based scorer
finds exactly the keywords "verify" and "suspended", notes the https
indicator, accumulates 2 risk factors, and returns risk_score 3.0 with
recommendation "Medium risk" and the matching explanation. -/
theorem fallback_scenario_verify_suspended (url : String)
    (h : strStartsWith url "https://" = true) :
    let c : SiteContent :=
      { url := url, html_content := "",
        text_content := "Please verify your account, it will be suspended" }
    getStrs (fallback_analysis c) "suspicious_elements" =
        ["Suspicious keyword: verify", "Suspicious keyword: suspended"] ∧
    getStrs (fallback_analysis c) "legitimate_indicators" =
        ["HTTPS encryption present"] ∧
    fallbackRiskFactors c = 2 ∧
    getNum (fallback_analysis c) "risk_score" = some 3.0 ∧
    getStr (fallback_analysis c) "recommendation" = some "Medium risk" ∧
    getStr (fallback_analysis c) "explanation" =
        some "Rule-based analysis found 2 risk factors" := by
  intro c
  have hf : foundSuspiciousWords c = ["verify", "suspended"] := by rfl
  have hrf : fallbackRiskFactors c = 2 := by
    unfold fallbackRiskFactors
    rw [show strStartsWith c.url "https://" = true from h, hf]
    rfl
  have hfa : fallback_analysis c =
      [("risk_score", Json.num (min ((2 : ℚ) * 1.5) 10.0)),
       ("confidence", Json.num 0.7),
       ("suspicious_elements", Json.arr
         [Json.str "Suspicious keyword: verify",
          Json.str "Suspicious keyword: suspended"]),
       ("legitimate_indicators", Json.arr [Json.str "HTTPS encryption present"]),
       ("recommendation", Json.str
         (if min ((2 : ℚ) * 1.5) 10.0 < 3 then "Low risk"
          else if min ((2 : ℚ) * 1.5) 10.0 < 7 then "Medium risk" else "High risk")),
       ("explanation", Json.str "Rule-based analysis found 2 risk factors"),
       ("brand_impersonation", Json.null)] := by
    unfold fallback_analysis
    rw [show strStartsWith c.url "https://" = true from h, hf, hrf]
    rfl
  refine ⟨?_, ?_, hrf, ?_, ?_, ?_⟩ <;> rw [hfa] <;> with_unfolding_all rfl

/-- C5 witness: the https instance. -/
theorem fallback_scenario_witness :
    strStartsWith "https://example.com" "https://" = true ∧
    fallbackRiskFactors
      { url := "https://example.com", html_content := "",
        text_content := "Please verify your account, it will be suspended" } = 2 :=
  ⟨rfl, (fallback_scenario_verify_suspended "https://example.com" rfl).2.2.1⟩

/-- C8: on the raw response "blah {...} blah" holding risk_score 9.2 and
confidence 0.8, structured extraction succeeds with exactly those two keys,
and the assembled result carries 9.2 / 0.8 with every remaining field at its
documented default. -/
theorem parse_structured_scenario :
    parse_ai_response
        "blah \x7b\"risk_score\": 9.2, \"confidence\": 0.8\x7d blah" =
      [("risk_score", Json.num 9.2), ("confidence", Json.num 0.8)] ∧
    analyze_content
        { url := "https://example.com", html_content := "", text_content := "" }
        (Except.ok "blah \x7b\"risk_score\": 9.2, \"confidence\": 0.8\x7d blah") =
      Except.ok
        { url := "https://example.com"
          risk_score := 9.2
          confidence := 0.8
          security_flags := { has_https := true, has_valid_certificate := true }
          suspicious_elements := []
          legitimate_indicators := []
          recommendation := "Requires manual review"
          explanation := "Automated analysis completed"
          brand_impersonation := none } := by
  refine ⟨?_, ?_⟩ <;> with_unfolding_all rfl

/-- C9: the classifier flags login forms exactly when some form has a
password-type field, and payment forms exactly when some single form has
more than two fields typed email/text/password/tel; the one-form page
[password, text, text, email] sets both flags. -/
theorem security_flags_forms_spec (c : SiteContent) :
    ((analyzeSecurityFlags c).has_login_forms = true ↔
      ∃ form ∈ c.forms, ∃ f ∈ form.fields, f.type = some "password") ∧
    ((analyzeSecurityFlags c).has_payment_forms = true ↔
      ∃ form ∈ c.forms,
        2 < (form.fields.filter (fun f =>
          f.type ∈ [some "email", some "text", some "password", some "tel"])).length) ∧
    (analyzeSecurityFlags
      { url := "https://x", html_content := "", text_content := "",
        forms := [{ fields := [{ type := some "password" }, { type := some "text" },
                               { type := some "text" }, { type := some "email" }] }] }
      ).has_login_forms = true ∧
    (analyzeSecurityFlags
      { url := "https://x", html_content := "", text_content := "",
        forms := [{ fields := [{ type := some "password" }, { type := some "text" },
                               { type := some "text" }, { type := some "email" }] }] }
      ).has_payment_forms = true := by
  have hpred : (fun f : FormField =>
        ["email", "text", "password", "tel"].any (fun t => f.type == some t)) =
      (fun f : FormField =>
        decide (f.type ∈ [some "email", some "text", some "password", some "tel"])) := by
    funext f
    cases hf : f.type <;> simp [List.any_eq_true, Bool.beq_eq_decide_eq]
  refine ⟨?_, ?_, by decide, by decide⟩
  · simp [analyzeSecurityFlags, List.any_eq_true]
  · simp only [analyzeSecurityFlags, hpred, List.any_eq_true]
    simp

theorem ws_toLower {ch : Char} (h : ch.isWhitespace = true) : ch.toLower = ch := by
  have hd : ch = ' ' ∨ ch = '\t' ∨ ch = '\r' ∨ ch = '\n' := by
    simpa [Char.isWhitespace, or_assoc] using h
  rcases hd with h | h | h | h <;> subst h <;> decide

theorem all_ws_lower (s : String) (h : s.data.all Char.isWhitespace = true) :
    (strLower s).data.all Char.isWhitespace = true := by
  show (s.data.map Char.toLower).all Char.isWhitespace = true
  rw [List.all_eq_true] at h ⊢
  intro x hx
  obtain ⟨ch, hc, rfl⟩ := List.mem_map.mp hx
  rw [ws_toLower (h ch hc)]
  exact h ch hc

theorem strContainsSub_ws_false (hay needle : String)
    (hws : hay.data.all Char.isWhitespace = true)
    (hne : needle.data.any (fun ch => !ch.isWhitespace) = true) :
    strContainsSub hay needle = false := by
  rw [strContainsSub, List.any_eq_false]
  intro t ht hpre
  rw [List.isPrefixOf_iff_prefix] at hpre
  obtain ⟨ch, hch, hnw⟩ := List.any_eq_true.mp hne
  have h3 : ch ∈ hay.data := ((List.mem_tails _ _).mp ht).subset (hpre.subset hch)
  have h4 := List.all_eq_true.mp hws ch h3
  simp [h4] at hnw

theorem pyFind_all_ws (s : String) (h : s.data.all Char.isWhitespace = true) :
    pyFind s '\x7b' = -1 := by
  unfold pyFind
  have hnone : s.data.findIdx? (fun a => a == '\x7b') = none := by
    rw [List.findIdx?_eq_none_iff]
    intro x hx
    have hw := List.all_eq_true.mp h x hx
    rw [Bool.beq_eq_decide_eq]
    by_contra hne
    rw [Bool.not_eq_false, decide_eq_true_eq] at hne
    subst hne
    exact absurd hw (by decide)
  rw [hnone]

/-- C6: the response parser is total by construction (it returns a plain
dictionary for every input string), and every empty or whitespace-only raw
response finds no brace, routes to the keyword-scan fallback, and yields
risk_score 5.0, confidence 0.6, suspicious_elements
["AI analysis inconclusive"], recommendation "Manual review recommended",
explanation "AI response could not be parsed properly".  The parser is also
exercised on an unbalanced-brace input, where it falls back with 5.0 as
well instead of failing. -/
theorem parse_ai_response_whitespace_fallback (s : String)
    (h : s.data.all Char.isWhitespace = true) :
    (parse_ai_response s =
      [("risk_score", Json.num 5.0),
       ("confidence", Json.num 0.6),
       ("suspicious_elements", Json.arr [Json.str "AI analysis inconclusive"]),
       ("legitimate_indicators", Json.arr []),
       ("recommendation", Json.str "Manual review recommended"),
       ("explanation", Json.str "AI response could not be parsed properly"),
       ("brand_impersonation", Json.null)]) ∧
    getNum (parse_ai_response "\x7bnot json") "risk_score" = some 5.0 ∧
    getNum (parse_ai_response "\x7bnot json\x7d") "risk_score" = some 5.0 := by
  refine ⟨?_, rfl, rfl⟩
  have hstep : parse_ai_response s = extract_from_text_response s := by
    unfold parse_ai_response
    rw [pyFind_all_ws s h]
    norm_num
  rw [hstep]
  have hlow := all_ws_lower s h
  have hhi : ∀ k ∈ high_risk_indicators,
      k.data.any (fun ch => !ch.isWhitespace) = true := by decide
  have hlo : ∀ k ∈ low_risk_indicators,
      k.data.any (fun ch => !ch.isWhitespace) = true := by decide
  have h8 : high_risk_indicators.any (fun k => strContainsSub (strLower s) k) = false := by
    rw [List.any_eq_false]
    intro k hk
    simp [strContainsSub_ws_false (strLower s) k hlow (hhi k hk)]
  have h2 : low_risk_indicators.any (fun k => strContainsSub (strLower s) k) = false := by
    rw [List.any_eq_false]
    intro k hk
    simp [strContainsSub_ws_false (strLower s) k hlow (hlo k hk)]
  simp only [extract_from_text_response, h8, h2]
  norm_num

/-- C6 witness: the empty raw response. -/
theorem parse_ai_response_ws_witness :
    "".data.all Char.isWhitespace = true ∧
    parse_ai_response "" =
      [("risk_score", Json.num 5.0),
       ("confidence", Json.num 0.6),
       ("suspicious_elements", Json.arr [Json.str "AI analysis inconclusive"]),
       ("legitimate_indicators", Json.arr []),
       ("recommendation", Json.str "Manual review recommended"),
       ("explanation", Json.str "AI response could not be parsed properly"),
       ("brand_impersonation", Json.null)] :=
  ⟨by decide, (parse_ai_response_whitespace_fallback "" (by decide)).1⟩

theorem fallback_empty_eval (c : SiteContent)
    (htext : c.text_content = "") (hforms : c.forms = []) :
    getNum (fallback_analysis c) "risk_score" =
      some (if strStartsWith c.url "https://" then 0.0 else 3.0) ∧
    getStr (fallback_analysis c) "recommendation" =
      some (if strStartsWith c.url "https://" then "Low risk" else "Medium risk") := by
  have hfw : foundSuspiciousWords c = [] := by
    unfold foundSuspiciousWords
    rw [htext]
    exact rfl
  have hrf : fallbackRiskFactors c =
      (if strStartsWith c.url "https://" then 0 else 2) := by
    unfold fallbackRiskFactors
    rw [hfw, hforms]
    simp
  have hval : getNum (fallback_analysis c) "risk_score" =
      some (min ((fallbackRiskFactors c : ℚ) * 1.5) 10.0) := rfl
  have hrec : getStr (fallback_analysis c) "recommendation" =
      some (if min ((fallbackRiskFactors c : ℚ) * 1.5) 10.0 < 3 then "Low risk"
            else if min ((fallbackRiskFactors c : ℚ) * 1.5) 10.0 < 7 then "Medium risk"
            else "High risk") := rfl
  constructor
  · rw [hval, hrf]
    cases hs : strStartsWith c.url "https://" <;> norm_num [min_def]
  · rw [hrec, hrf]
    cases hs : strStartsWith c.url "https://" <;> norm_num [min_def]

/-- C2 counterexample: a non-https page with empty text and no forms gets
risk_score 3.0 and recommendation "Medium risk" from the rule-based scorer,
not the claimed 0.0 / "Low risk". -/
theorem empty_content_scorer_cex :
    let c : SiteContent :=
      { url := "http://example.com", html_content := "", text_content := "" }
    c.text_content = "" ∧ c.forms = [] ∧
    getNum (fallback_analysis c) "risk_score" = some 3.0 ∧
    getStr (fallback_analysis c) "recommendation" = some "Medium risk" ∧
    ¬ (getNum (fallback_analysis c) "risk_score" = some 0.0) ∧
    ¬ (getStr (fallback_analysis c) "recommendation" = some "Low risk") := by
  intro c
  obtain ⟨h3, hrec⟩ := fallback_empty_eval c rfl rfl
  rw [show strStartsWith c.url "https://" = false from rfl] at h3 hrec
  norm_num at h3 hrec
  refine ⟨rfl, rfl, by rw [h3]; norm_num, hrec, fun hz => ?_, fun hz => ?_⟩
  · rw [h3] at hz
    exact absurd (Option.some.inj hz) (by norm_num)
  · rw [hrec] at hz
    exact absurd (Option.some.inj hz) (by decide)

/-- C2 (amended): for every page content with empty text and no forms, the
four content-derived flags are false while has_https and
has_valid_certificate equal the https test on the URL; the rule-based
scorer returns 0.0 / "Low risk" exactly when the URL starts with https://
and 3.0 / "Medium risk" otherwise. -/
theorem flags_and_score_on_empty_content (c : SiteContent)
    (htext : c.text_content = "") (hforms : c.forms = []) :
    ((analyzeSecurityFlags c).has_suspicious_keywords = false ∧
     (analyzeSecurityFlags c).has_login_forms = false ∧
     (analyzeSecurityFlags c).has_payment_forms = false ∧
     (analyzeSecurityFlags c).is_blacklisted = false) ∧
    ((analyzeSecurityFlags c).has_https = strStartsWith c.url "https://" ∧
     (analyzeSecurityFlags c).has_valid_certificate = strStartsWith c.url "https://") ∧
    getNum (fallback_analysis c) "risk_score" =
      some (if strStartsWith c.url "https://" then 0.0 else 3.0) ∧
    getStr (fallback_analysis c) "recommendation" =
      some (if strStartsWith c.url "https://" then "Low risk" else "Medium risk") := by
  obtain ⟨hv, hr⟩ := fallback_empty_eval c htext hforms
  refine ⟨⟨?_, ?_, ?_, rfl⟩, ⟨rfl, rfl⟩, hv, hr⟩
  · show suspicious_keywords.any
      (fun keyword => strContainsSub (strLower c.text_content) keyword) = false
    rw [htext]
    exact rfl
  · show c.forms.any (fun form =>
      form.fields.any (fun f => f.type == some "password")) = false
    rw [hforms]
    exact rfl
  · show c.forms.any (fun form =>
      (form.fields.filter (fun f =>
        (["email", "text", "password", "tel"] : List String).any
          (fun t => f.type == some t))).length > 2) = false
    rw [hforms]
    exact rfl

/-- C2 witness: the https instance with empty text and no forms. -/
theorem flags_and_score_on_empty_witness :
    ({ url := "https://example.com", html_content := "",
       text_content := "" } : SiteContent).text_content = "" ∧
    getNum (fallback_analysis
      { url := "https://example.com", html_content := "", text_content := "" })
      "risk_score" =
      some (if strStartsWith "https://example.com" "https://" then 0.0 else 3.0) :=
  ⟨rfl, (flags_and_score_on_empty_content
    { url := "https://example.com", html_content := "", text_content := "" }
    rfl rfl).2.2.1⟩

theorem hasPasswordForms_of_isEmpty (c : SiteContent)
    (h : c.forms.isEmpty = true) : hasPasswordForms c = false := by
  unfold hasPasswordForms
  rw [List.isEmpty_iff.mp h]
  rfl

/-- C10: the classifier and the rule-based scorer agree on password-form
detection — has_login_forms is true exactly when the scorer emits
"Password input forms detected", and the scorer's accumulator adds exactly
1 when (and only when) that flag is set. -/
theorem login_flag_agrees_with_fallback (c : SiteContent) :
    ((analyzeSecurityFlags c).has_login_forms = true ↔
      "Password input forms detected" ∈
        getStrs (fallback_analysis c) "suspicious_elements") ∧
    fallbackRiskFactors c =
      (if strStartsWith c.url "https://" then 0 else 2)
        + (foundSuspiciousWords c).length
        + (if (analyzeSecurityFlags c).has_login_forms then 1 else 0) := by
  have hflag : (analyzeSecurityFlags c).has_login_forms = hasPasswordForms c := rfl
  have hmem : getStrs (fallback_analysis c) "suspicious_elements" =
      (if strStartsWith c.url "https://" then [] else ["No HTTPS encryption"])
        ++ (foundSuspiciousWords c).map (fun w => "Suspicious keyword: " ++ w)
        ++ (if c.forms.isEmpty then []
            else if hasPasswordForms c then ["Password input forms detected"]
            else []) :=
    jsonStrings_map_str _
  have h1 : "Password input forms detected" ∉
      (if strStartsWith c.url "https://" then ([] : List String)
       else ["No HTTPS encryption"]) := by
    split <;> decide
  have h2 : "Password input forms detected" ∉
      (foundSuspiciousWords c).map (fun w => "Suspicious keyword: " ++ w) := by
    intro hm
    obtain ⟨w, hw, heq⟩ := List.mem_map.mp hm
    have hw4 : w ∈ fallback_suspicious_words :=
      (List.mem_filter.mp (by simpa [foundSuspiciousWords] using hw)).1
    have hne : ∀ w ∈ fallback_suspicious_words,
        ¬ ("Suspicious keyword: " ++ w = "Password input forms detected") := by
      decide
    exact hne w hw4 heq
  have h3 : "Password input forms detected" ∈
      (if c.forms.isEmpty then ([] : List String)
       else if hasPasswordForms c then ["Password input forms detected"]
       else []) ↔ hasPasswordForms c = true := by
    cases hemp : c.forms.isEmpty with
    | true => simp [hasPasswordForms_of_isEmpty c hemp]
    | false => cases hpw : hasPasswordForms c <;> simp
  have hforms3 : (if c.forms.isEmpty then 0 else if hasPasswordForms c then 1 else 0)
      = (if hasPasswordForms c then 1 else 0) := by
    cases hemp : c.forms.isEmpty with
    | true => simp [hasPasswordForms_of_isEmpty c hemp]
    | false => simp
  constructor
  · rw [hflag, hmem]
    simp only [List.mem_append]
    constructor
    · intro hpw
      exact Or.inr (h3.mpr hpw)
    · rintro ((hin | hin) | hin)
      · exact absurd hin h1
      · exact absurd hin h2
      · exact h3.mp hin
  · rw [hflag]
    unfold fallbackRiskFactors
    rw [hforms3]

/-- C3: every report the analysis call returns satisfies
risk_score ∈ [0,10] and confidence ∈ [0,1], on the success path (where the
result constructor validates the ranges and any violation diverts to the
degraded path) and on the degraded path (fixed 5.0 / 0.1). -/
theorem report_risk_confidence_bounds (url : String)
    (scrape : Except String SiteContent) (ai : Except String String) (t : ℚ)
    (r : PhishingReport) (h : analyze_site url scrape ai t = Except.ok r) :
    0 ≤ r.analysis_result.risk_score ∧ r.analysis_result.risk_score ≤ 10 ∧
    0 ≤ r.analysis_result.confidence ∧ r.analysis_result.confidence ≤ 1 := by
  cases scrape with
  | error e =>
    have hv := degradedReport_ok_values
      (show degradedReport url e t = Except.ok r from h)
    rw [hv.1, hv.2]
    norm_num
  | ok c =>
    cases hac : analyze_content c ai with
    | error e =>
      have h' : degradedReport url e t = Except.ok r := by
        unfold analyze_site at h
        dsimp only at h
        rw [hac] at h
        exact h
      have hv := degradedReport_ok_values h'
      rw [hv.1, hv.2]
      norm_num
    | ok ar =>
      have h' : (Except.ok
          { site_content := c, analysis_result := ar, processing_time := t,
            errors := [] } : Except String PhishingReport) = Except.ok r := by
        unfold analyze_site at h
        dsimp only at h
        rw [hac] at h
        exact h
      cases h'
      have hb := mkAnalysisResult_ok_bounds hac
      exact ⟨hb.1.1, hb.1.2, hb.2.1, hb.2.2⟩

/-- C3 witness: a concrete degraded run. -/
theorem report_risk_confidence_bounds_witness :
    0 ≤ ({ site_content :=
             { url := "https://example.com", html_content := "",
               text_content := "Error: boom" }
           analysis_result :=
             { url := "https://example.com", risk_score := 5.0, confidence := 0.1,
               security_flags := {},
               recommendation := "Unable to analyze due to error",
               explanation := "Analysis failed: boom" }
           processing_time := 0
           errors := ["Analysis error: boom"] } : PhishingReport
         ).analysis_result.risk_score :=
  (report_risk_confidence_bounds "https://example.com" (Except.error "boom")
    (Except.error "no key") 0 _ (by with_unfolding_all rfl)).1

/-- C1 counterexample: with the empty string as URL (rejected by the URL
validator) and a failing scrape step, the degraded-report construction
itself fails URL validation, so the analysis call propagates an error
instead of returning a report. -/
theorem analyze_site_not_total_cex :
    analyze_site "" (Except.error "scrape failed") (Except.error "no key") 0 =
      Except.error "validation error for HttpUrl" := rfl

/-- C1 (amended): for every input URL string accepted by the URL validator,
analyze_site returns a well-formed report and never propagates an error;
whenever the scrape step or the result assembly raises with message e, the
report degrades to empty HTML, text "Error: e", risk_score 5.0, confidence
0.1, default security flags, recommendation "Unable to analyze due to
error", explanation "Analysis failed: e", and a one-entry errors list. -/
theorem analyze_site_total_for_valid_urls (url : String)
    (scrape : Except String SiteContent) (ai : Except String String) (t : ℚ)
    (hurl : isValidHttpUrl url = true) :
    (∃ r, analyze_site url scrape ai t = Except.ok r) ∧
    (∀ e, scrape = Except.error e →
      analyze_site url scrape ai t = Except.ok
        { site_content :=
            { url := url, html_content := "", text_content := "Error: " ++ e }
          analysis_result :=
            { url := url, risk_score := 5.0, confidence := 0.1,
              security_flags := {},
              recommendation := "Unable to analyze due to error",
              explanation := "Analysis failed: " ++ e }
          processing_time := t
          errors := ["Analysis error: " ++ e] }) ∧
    (∀ c e, scrape = Except.ok c → analyze_content c ai = Except.error e →
      analyze_site url scrape ai t = Except.ok
        { site_content :=
            { url := url, html_content := "", text_content := "Error: " ++ e }
          analysis_result :=
            { url := url, risk_score := 5.0, confidence := 0.1,
              security_flags := {},
              recommendation := "Unable to analyze due to error",
              explanation := "Analysis failed: " ++ e }
          processing_time := t
          errors := ["Analysis error: " ++ e] }) := by
  have hdeg : ∀ e, degradedReport url e t = Except.ok
      { site_content :=
          { url := url, html_content := "", text_content := "Error: " ++ e }
        analysis_result :=
          { url := url, risk_score := 5.0, confidence := 0.1,
            security_flags := {},
            recommendation := "Unable to analyze due to error",
            explanation := "Analysis failed: " ++ e }
        processing_time := t
        errors := ["Analysis error: " ++ e] } := by
    intro e
    unfold degradedReport
    rw [if_pos hurl]
  refine ⟨?_, ?_, ?_⟩
  · cases scrape with
    | error e => exact ⟨_, hdeg e⟩
    | ok c =>
      cases hac : analyze_content c ai with
      | error e =>
        have hred : analyze_site url (Except.ok c) ai t = degradedReport url e t := by
          unfold analyze_site
          dsimp only
          rw [hac]
        exact ⟨_, hred.trans (hdeg e)⟩
      | ok ar =>
        have hred : analyze_site url (Except.ok c) ai t = Except.ok
            { site_content := c, analysis_result := ar,
              processing_time := t, errors := [] } := by
          unfold analyze_site
          dsimp only
          rw [hac]
        exact ⟨_, hred⟩
  · intro e he
    subst he
    exact hdeg e
  · intro c e hc hac
    subst hc
    show (match analyze_content c ai with
      | Except.error e => degradedReport url e t
      | Except.ok analysis_result =>
        Except.ok
          { site_content := c, analysis_result := analysis_result,
            processing_time := t, errors := [] }) = _
    rw [hac]
    exact hdeg e

/-- C1 witness: a valid https URL with a failing scrape step. -/
theorem analyze_site_total_witness :
    isValidHttpUrl "https://example.com" = true ∧
    analyze_site "https://example.com" (Except.error "boom")
        (Except.error "no key") 0 =
      Except.ok
        { site_content :=
            { url := "https://example.com", html_content := "",
              text_content := "Error: " ++ "boom" }
          analysis_result :=
            { url := "https://example.com", risk_score := 5.0, confidence := 0.1,
              security_flags := {},
              recommendation := "Unable to analyze due to error",
              explanation := "Analysis failed: " ++ "boom" }
          processing_time := 0
          errors := ["Analysis error: " ++ "boom"] } :=
  ⟨rfl, (analyze_site_total_for_valid_urls "https://example.com"
    (Except.error "boom") (Except.error "no key") 0 rfl).2.1 "boom" rfl⟩

end SiteChecker
